import Mathlib

/-!
Shallow embedding of `dist/jquery.loading.js` (jquery-loading, v0.0.0).

The plugin attaches a "loading" overlay widget to a DOM element.  We model:

* the jQuery-level DOM facts the plugin reads from its element (id, whether
  it is `body`, offset, outer dimensions) as a record `Elem`;
* the overlay node the plugin creates (`initOverlay`) as a record `Overlay`
  holding its visibility and the CSS geometry `resize` writes;
* the three configurable callbacks (`onStart`/`onStop`/`onClick`) as a small
  syntax `Callback` of the effects the shipped defaults have on the overlay.
  The shipped defaults are `fadeIn(150)`, `fadeOut(150)` and a no-op.  A fade
  is modelled by its terminal visibility: the 150 ms animation is collapsed
  to its end state, matching the spec view that completion of the fade is
  never awaited by the API and state is read after the transition settles;
* the custom events `loading.start` / `loading.stop` / `loading.click`
  triggered on the owning element as a trace of `Event` values.  The payload
  a trigger carries is either the widget instance (`Payload.widget`) or a
  plain DOM node (`Payload.overlayNode`): the source triggers start/stop
  with `this` = the Loading object, but the overlay click handler triggers
  `loading.click` with `this` = the clicked overlay DOM node;
* the per-element `$.data` slot keyed by the string `jquery-loading`, and
  the `$.fn.loading` / `$.expr[:].loading` entry points, as operations on a
  `World` record holding the registry of slots plus a counter of overlay
  nodes the plugin has prepended to `body`.

Handler registration: `attachOptionsHandlers` binds, once per instance, one
handler per event name on the element, a handler that reads the CURRENT
`self.settings` callback at dispatch time and applies it to the event
payload.  Those three bindings are baked into `LState.trigger` below.  The
conditional overlay click-to-stop binding made by
`attachMethodsToExternalEvents` when `settings.stoppable` holds at init
time is recorded in the boolean field `stopOnClick` of the instance.
-/

/-- Width/height value the plugin writes into the overlay CSS: either a
pixel count read off the element, or the literal string `100%` used for
full-page overlays. -/
inductive Dim
  | px (n : Nat)
  | pct100
deriving DecidableEq, Repr

/-- DOM-side facts the plugin reads from its target element: its id (we use
a numeric identity), whether it is the `body` element, and the current
offset / outer dimensions jQuery would report. -/
structure Elem where
  id : Nat
  isBody : Bool
  offsetTop : Int
  offsetLeft : Int
  outerWidth : Nat
  outerHeight : Nat
deriving DecidableEq, Repr

/-- Effect language for the three configurable callbacks.  The shipped
defaults are `fadeIn 150` (onStart), `fadeOut 150` (onStop) and `noop`
(onClick).  A fade is modelled by the visibility it leaves behind once the
animation has run out. -/
inductive Callback
  | fadeIn (ms : Nat)
  | fadeOut (ms : Nat)
  | noop
deriving DecidableEq, Repr

/-- Visibility left on the overlay after a callback has acted on it. -/
def runCallback (cb : Callback) (visible : Bool) : Bool :=
  match cb with
  | .fadeIn _ => true
  | .fadeOut _ => false
  | .noop => visible

/-- Live settings of an instance.  Mirrors the object built at construction
by `$.extend({}, Loading.defaults, options)` followed by the assignment
`this.settings.fullPage = this.element.is(&body&)`.  The `start` key is NOT
part of `Loading.defaults` and is never read by this version of the code;
`$.extend` still copies it from the caller options, so we carry it as an
`Option Bool` to keep the copy observable. -/
structure Settings where
  message : String
  theme : String
  stoppable : Bool
  onStart : Callback
  onStop : Callback
  onClick : Callback
  fullPage : Bool
  start : Option Bool
deriving DecidableEq, Repr

/-- Caller-supplied options object: each key may be absent.  Used both for
the attach-time options argument and for the runtime `options` method. -/
structure Opts where
  message : Option String := none
  theme : Option String := none
  stoppable : Option Bool := none
  onStart : Option Callback := none
  onStop : Option Callback := none
  onClick : Option Callback := none
  fullPage : Option Bool := none
  start : Option Bool := none
deriving DecidableEq, Repr

/-- Keys present in the process-wide `Loading.defaults` object
(lines 19-63 of the source).  Note there is no `fullPage` and no `start`
key among the defaults. -/
structure DefaultsRec where
  message : String
  theme : String
  stoppable : Bool
  onStart : Callback
  onStop : Callback
  onClick : Callback
deriving DecidableEq, Repr

/-- Process-wide defaults: message `Loading...`, theme `light`,
stoppable off, fade-in / fade-out over 150 ms, no-op click handler. -/
def Loading.defaults : DefaultsRec :=
  { message := "Loading..."
    theme := "light"
    stoppable := false
    onStart := Callback.fadeIn 150
    onStop := Callback.fadeOut 150
    onClick := Callback.noop }

/-- Shallow merge `$.extend({}, Loading.defaults, options)` performed at
construction (source line 13): each key present in the caller options wins,
each absent key keeps the default.  A key present in neither object (such
as `fullPage`) is `undefined` in the merged JS object; we model the
undefined `fullPage` as `false` and keep `start` optional. -/
def extendDefaults (d : DefaultsRec) (o : Opts) : Settings :=
  { message := o.message.getD d.message
    theme := o.theme.getD d.theme
    stoppable := o.stoppable.getD d.stoppable
    onStart := o.onStart.getD d.onStart
    onStop := o.onStop.getD d.onStop
    onClick := o.onClick.getD d.onClick
    fullPage := o.fullPage.getD false
    start := o.start }

/-- Shallow merge `$.extend({}, this.settings, options)` performed by the
runtime `options` method (source line 222): keys present in the partial
argument win, the rest of the live settings are kept. -/
def Settings.extendWith (s : Settings) (o : Opts) : Settings :=
  { message := o.message.getD s.message
    theme := o.theme.getD s.theme
    stoppable := o.stoppable.getD s.stoppable
    onStart := o.onStart.getD s.onStart
    onStop := o.onStop.getD s.onStop
    onClick := o.onClick.getD s.onClick
    fullPage := o.fullPage.getD s.fullPage
    start := match o.start with | some b => some b | none => s.start }

/-- Settings held by a fresh instance: the shallow merge of defaults and
caller options, after which the constructor overwrites `fullPage` with
whether the element is `body` (source lines 13-14). -/
def constructSettings (e : Elem) (o : Opts) : Settings :=
  { extendDefaults Loading.defaults o with fullPage := e.isBody }

/-- Overlay node owned by an instance: visibility plus the CSS the plugin
writes (`initOverlay` fixes theme class and message content; `resize`
rewrites top/left/width/height). -/
structure Overlay where
  visible : Bool
  theme : String
  message : String
  top : Int
  left : Int
  width : Dim
  height : Dim
deriving DecidableEq, Repr

/-- Widget instance: back reference to the element, live settings, owned
overlay, and whether the conditional click-to-stop overlay handler was
registered (done once, at init time, iff `settings.stoppable` then). -/
structure Loading where
  element : Elem
  settings : Settings
  overlay : Overlay
  stopOnClick : Bool
deriving DecidableEq, Repr

/-- Prototype method `resize` (source lines 168-184): read the current
outer dimensions of the element, replace both with the string `100%` when
`settings.fullPage` holds, and write top/left from the current element
offset together with the chosen width/height into the overlay CSS. -/
def Loading.resize (l : Loading) : Loading :=
  let totalWidth : Dim := Dim.px l.element.outerWidth
  let totalHeight : Dim := Dim.px l.element.outerHeight
  let w : Dim := if l.settings.fullPage then Dim.pct100 else totalWidth
  let h : Dim := if l.settings.fullPage then Dim.pct100 else totalHeight
  { l with overlay :=
    { l.overlay with
        top := l.element.offsetTop
        left := l.element.offsetLeft
        width := w
        height := h } }

/-- Prototype method `initOverlay` (source lines 86-111): build a fresh
overlay div carrying the theme class and the message content, `.hide()` it,
prepend it to `body`, then call `resize`.  The prepend itself is counted at
the call sites that track DOM node creation. -/
def Loading.initOverlay (l : Loading) : Loading :=
  let ov : Overlay :=
    { visible := false
      theme := l.settings.theme
      message := l.settings.message
      top := 0
      left := 0
      width := Dim.px 0
      height := Dim.px 0 }
  Loading.resize { l with overlay := ov }

/-- Prototype method `attachMethodsToExternalEvents` (source lines
117-142): registers the click-to-stop overlay handler iff
`settings.stoppable` holds now, the unconditional click handler that
triggers `loading.click`, and the window-resize / document-ready bindings
of `resize`.  The unconditional bindings are baked into the dispatch
functions below; repeated registrations of the conditional stop handler
are collapsed into the single boolean `stopOnClick` (they only repeat the
same stop trigger on a click). -/
def Loading.attachExternal (l : Loading) : Loading :=
  { l with stopOnClick := l.stopOnClick || l.settings.stoppable }

/-- Prototype method `attachOptionsHandlers` (source lines 147-161):
registers on the element one handler per custom event, each reading the
current settings callback at dispatch time.  That dispatch behavior lives
in `LState.trigger`; the registration adds no per-instance data. -/
def Loading.attachOptions (l : Loading) : Loading := l

/-- Prototype method `init` (source lines 77-81). -/
def Loading.init (l : Loading) : Loading :=
  Loading.attachOptions (Loading.attachExternal (Loading.initOverlay l))

/-- Constructor `Loading(element, options)` (source lines 11-17): store the
element, build the settings (shallow merge plus derived `fullPage`), then
run `init`.  The overlay field before `initOverlay` runs is a dummy that
`initOverlay` replaces wholesale. -/
def Loading.construct (e : Elem) (o : Opts) : Loading :=
  Loading.init
    { element := e
      settings := constructSettings e o
      overlay :=
        { visible := false, theme := "", message := ""
          top := 0, left := 0, width := Dim.px 0, height := Dim.px 0 }
      stopOnClick := false }

/-- Names of the custom events the plugin triggers on the owning element
(`loading.start`, `loading.stop`, `loading.click`). -/
inductive EvName
  | start
  | stop
  | click
deriving DecidableEq, Repr

/-- Payload carried by a trigger: the source passes `this`, which is the
Loading object inside the `start` / `stop` methods but the clicked overlay
DOM node inside the overlay click handler. -/
inductive Payload
  | widget (l : Loading)
  | overlayNode
deriving DecidableEq, Repr

/-- One custom event fired on the owning element. -/
structure Event where
  target : Nat
  name : EvName
  payload : Payload
deriving DecidableEq, Repr

/-- Observable state of one attached widget: the instance stored in the
per-element data slot, plus the trace of custom events fired on its
element. -/
structure LState where
  loading : Loading
  events : List Event
deriving DecidableEq, Repr

/-- Trigger one custom event on the owning element.  The event is appended
to the trace; then the handler `attachOptionsHandlers` registered for that
event name applies the current settings callback to the payload.  A fade
callback manipulates `loading.overlay` of its argument, so it only lands
when the payload is the widget instance (the instance stored in the slot:
the plugin always passes the very instance it owns); applying a fade to a
DOM-node payload would be a JS TypeError, and the shipped `onClick`
default ignores its argument, so the node branch leaves state alone. -/
def LState.trigger (n : EvName) (pl : Payload) (st : LState) : LState :=
  let fired : LState :=
    { st with events := st.events ++ [{ target := st.loading.element.id, name := n, payload := pl }] }
  let cb : Callback :=
    match n with
    | .start => fired.loading.settings.onStart
    | .stop => fired.loading.settings.onStop
    | .click => fired.loading.settings.onClick
  match pl with
  | .widget _ =>
      { fired with loading :=
        { fired.loading with overlay :=
          { fired.loading.overlay with
              visible := runCallback cb fired.loading.overlay.visible } } }
  | .overlayNode => fired

/-- Prototype method `start` (source lines 189-191): trigger
`loading.start` on the element with the instance as payload. -/
def LState.start (st : LState) : LState :=
  st.trigger EvName.start (Payload.widget st.loading)

/-- Prototype method `stop` (source lines 196-198): trigger `loading.stop`
on the element with the instance as payload. -/
def LState.stop (st : LState) : LState :=
  st.trigger EvName.stop (Payload.widget st.loading)

/-- Prototype method `active` (source lines 203-205): report the current
visibility of the overlay; there is no separate state flag. -/
def LState.active (st : LState) : Bool :=
  st.loading.overlay.visible

/-- Prototype method `toggle` (source lines 210-216). -/
def LState.toggle (st : LState) : LState :=
  if st.active then st.stop else st.start

/-- Prototype method `options` (source lines 221-223): shallow merge the
partial argument into the live settings. -/
def LState.options (st : LState) (o : Opts) : LState :=
  { st with loading := { st.loading with settings := st.loading.settings.extendWith o } }

/-- A click landing on the overlay node.  The overlay handlers run in
registration order: first the conditional click-to-stop handler (present
iff `stopOnClick`), then the unconditional handler that triggers
`loading.click` on the element with the clicked overlay DOM node as
payload (source lines 121-130). -/
def LState.overlayClick (st : LState) : LState :=
  let st1 : LState := if st.loading.stopOnClick then st.stop else st
  st1.trigger EvName.click Payload.overlayNode

/-- Handler bound to `window.resize` (source lines 133-135): run `resize`. -/
def LState.windowResize (st : LState) : LState :=
  { st with loading := st.loading.resize }

/-- Handler bound to `document.ready` (source lines 139-141): run `resize`. -/
def LState.documentReady (st : LState) : LState :=
  { st with loading := st.loading.resize }

/-- Number of events of a given name fired so far on the element. -/
def countEvents (n : EvName) (st : LState) : Nat :=
  (st.events.filter (fun ev => ev.name == n)).length

/-- Total number of `loading.start` plus `loading.stop` events fired. -/
def startStopCount (st : LState) : Nat :=
  countEvents EvName.start st + countEvents EvName.stop st

/-- Externally driven transitions of one attached widget: the public
methods reachable through the plugin surface plus the DOM events the
plugin listens to. -/
inductive Step
  | startCall
  | stopCall
  | toggleCall
  | clickOverlay
  | winResize
  | docReady
  | setOptions (o : Opts)
deriving DecidableEq, Repr

/-- Apply one transition. -/
def LState.step (st : LState) : Step → LState
  | .startCall => st.start
  | .stopCall => st.stop
  | .toggleCall => st.toggle
  | .clickOverlay => st.overlayClick
  | .winResize => st.windowResize
  | .docReady => st.documentReady
  | .setOptions o => st.options o

/-- Function-valued properties of a Loading instance, i.e. the prototype
methods (source lines 72-224).  Any other property name looked up by the
string dispatch of `$.fn.loading` is either a data field or `undefined`,
and `.apply` on it raises a TypeError. -/
def Loading.methodNames : List String :=
  ["init", "initOverlay", "attachMethodsToExternalEvents", "attachOptionsHandlers",
   "resize", "start", "stop", "active", "toggle", "options"]

/-- String dispatch `loading[options].apply(loading, otherArgs)` performed
by `$.fn.loading` (source line 246).  Returns the updated widget state and
the number of fresh overlay nodes prepended to `body` during the call, or
the TypeError message raised when the name is not a function-valued
property.  The `options` method consumes the first extra argument (absent
extra arguments behave like the empty partial object, since `$.extend`
ignores `undefined` sources); `active` returns a value `$.fn.loading`
discards. -/
def LState.invoke (nm : String) (arg : Opts) (st : LState) : Except String (LState × Nat) :=
  if nm = "init" then .ok ({ st with loading := st.loading.init }, 1)
  else if nm = "initOverlay" then .ok ({ st with loading := st.loading.initOverlay }, 1)
  else if nm = "attachMethodsToExternalEvents" then
    .ok ({ st with loading := st.loading.attachExternal }, 0)
  else if nm = "attachOptionsHandlers" then
    .ok ({ st with loading := st.loading.attachOptions }, 0)
  else if nm = "resize" then .ok ({ st with loading := st.loading.resize }, 0)
  else if nm = "start" then .ok (st.start, 0)
  else if nm = "stop" then .ok (st.stop, 0)
  else if nm = "active" then .ok (st, 0)
  else if nm = "toggle" then .ok (st.toggle, 0)
  else if nm = "options" then .ok (st.options arg, 0)
  else .error (nm ++ " is not a function")

/-- Lookup in the per-element `$.data` registry. -/
def lookupReg (k : Nat) : List (Nat × LState) → Option LState
  | [] => none
  | (k2, v) :: rest => if k = k2 then some v else lookupReg k rest

/-- Store into the per-element `$.data` registry, replacing any entry for
the same element. -/
def insertReg (k : Nat) (v : LState) : List (Nat × LState) → List (Nat × LState)
  | [] => [(k, v)]
  | (k2, v2) :: rest =>
      if k = k2 then (k, v) :: rest else (k2, v2) :: insertReg k v rest

/-- Global state: the `$.data` slots keyed by element identity under the
`jquery-loading` data attribute, plus a count of overlay nodes the plugin
has prepended to `body`. -/
structure World where
  registry : List (Nat × LState)
  overlaysCreated : Nat
deriving DecidableEq, Repr

/-- Read the `jquery-loading` data slot of an element. -/
def World.getData (w : World) (elemId : Nat) : Option LState :=
  lookupReg elemId w.registry

/-- Argument given to `$.fn.loading`: either a plain options object (or
nothing, which behaves like the empty object), or a method-name string
with its extra arguments. -/
inductive LoadingArg
  | config (o : Opts)
  | method (nm : String) (arg : Opts)
deriving DecidableEq, Repr

/-- Second half of `$.fn.loading` (source lines 245-249): once the slot
holds an instance, a string argument is dispatched as a method call and
anything else is treated as a start request.  Returns the final world and
the message of a TypeError the dispatch raised, if any (a raised error
propagates to the caller after the data slot was already written). -/
def World.fnDispatch (w : World) (e : Elem) (st : LState) (arg : LoadingArg) :
    World × Option String :=
  match arg with
  | .config _ =>
      (⟨insertReg e.id st.start w.registry, w.overlaysCreated⟩, none)
  | .method nm marg =>
      match st.invoke nm marg with
      | .error msg => (w, some msg)
      | .ok (st2, k) =>
          (⟨insertReg e.id st2 w.registry, w.overlaysCreated + k⟩, none)

/-- Entry point `$.fn.loading` on one element (source lines 234-251): read
the data slot; when empty, construct a new instance (prepending one fresh
overlay node to `body`) with the argument as options when it is a config
object (a string argument fed to `$.extend` contributes no relevant keys,
so construction then uses the plain defaults) and store it; finally
dispatch on the argument. -/
def World.fnLoading (w : World) (e : Elem) (arg : LoadingArg) : World × Option String :=
  match lookupReg e.id w.registry with
  | some st => World.fnDispatch w e st arg
  | none =>
      let o : Opts := match arg with | .config oo => oo | .method _ _ => {}
      let st : LState := ⟨Loading.construct e o, []⟩
      World.fnDispatch
        ⟨insertReg e.id st w.registry, w.overlaysCreated + 1⟩ e st arg

/-- Selector predicate `$.expr[:].loading` (source lines 259-267): read
the data slot; report false when it is empty, and the current `active()`
of the stored instance otherwise. -/
def World.exprLoading (w : World) (elemId : Nat) : Bool :=
  match w.getData elemId with
  | none => false
  | some st => st.active

/-- Concrete non-body element used by the evaluation theorems. -/
def demoElem : Elem :=
  { id := 0, isBody := false, offsetTop := 5, offsetLeft := 7
    outerWidth := 30, outerHeight := 40 }

/-- Freshly constructed widget state on `demoElem` with default options,
before any event has fired. -/
def demoState : LState :=
  ⟨Loading.construct demoElem {}, []⟩

/-- Freshly constructed widget state on `demoElem` with `stoppable` on. -/
def demoStoppable : LState :=
  ⟨Loading.construct demoElem { stoppable := some true }, []⟩

/-- World holding exactly the demo widget in its data slot. -/
def demoWorld : World :=
  ⟨[(0, demoState)], 1⟩

/-! Helper lemmas about the registry and the event trace. -/

theorem lookupReg_insertReg (k : Nat) (v : LState) (r : List (Nat × LState)) :
    lookupReg k (insertReg k v r) = some v := by
  induction r with
  | nil => simp [insertReg, lookupReg]
  | cons p rest ih =>
      obtain ⟨k2, v2⟩ := p
      by_cases h : k = k2 <;> simp [insertReg, lookupReg, h, ih]

theorem countEvents_trigger (n m : EvName) (pl : Payload) (st : LState) :
    countEvents n (st.trigger m pl) =
      countEvents n st + (if m = n then 1 else 0) := by
  have hfilter : ∀ (tg : Nat) (plx : Payload),
      (List.filter (fun ev => ev.name == n) [Event.mk tg m plx]).length =
        (if m = n then 1 else 0) := by
    intro tg plx
    by_cases h : m = n
    · simp [List.filter, h, beq_self_eq_true]
    · simp [List.filter, h, show (m == n) = false from by simp [h]]
  cases pl <;> simp [LState.trigger, countEvents, List.filter_append, hfilter]

theorem startStopCount_trigger (m : EvName) (pl : Payload) (st : LState) :
    startStopCount (st.trigger m pl) =
      startStopCount st +
        ((if m = EvName.start then 1 else 0) + (if m = EvName.stop then 1 else 0)) := by
  cases m <;> simp [startStopCount, countEvents_trigger] <;> omega

/-! Claim theorems. -/

/-- C1: the claim says a configuration with `start: false` leaves the
instance inactive immediately after attachment.  Evaluation of the code at
that input shows the opposite: this version has no `start` option at all,
`$.fn.loading` unconditionally issues a start request after construction,
so the element is reported loading (active) even though the caller passed
`start: false` (the key is copied into the settings, as the third conjunct
shows, but never read). -/
theorem c1_start_false_still_active :
    ((World.mk [] 0).fnLoading demoElem (LoadingArg.config { start := some false })).2 = none ∧
    ((World.mk [] 0).fnLoading demoElem (LoadingArg.config { start := some false })).1.exprLoading 0
      = true ∧
    (((World.mk [] 0).fnLoading demoElem
        (LoadingArg.config { start := some false })).1.getData 0).map
          (fun st => st.loading.settings.start) = some (some false) :=
  ⟨rfl, rfl, rfl⟩

/-- C2: the claim says all three notifications carry the widget instance as
payload.  Evaluation at a concrete attached widget shows that a start call
fires exactly one `loading.start` event whose payload is the instance (and
likewise for stop), but a click on the overlay fires a `loading.click`
event whose payload is the clicked overlay DOM node, which is not the
widget instance. -/
theorem c2_click_payload_is_dom_node :
    demoState.overlayClick.events.map Event.payload = [Payload.overlayNode] ∧
    demoState.start.events.map Event.payload = [Payload.widget demoState.loading] ∧
    countEvents EvName.start demoState.start = 1 ∧
    countEvents EvName.stop demoState.stop = 1 ∧
    Payload.overlayNode ≠ Payload.widget demoState.overlayClick.loading :=
  ⟨rfl, rfl, rfl, rfl, fun h => Payload.noConfusion h⟩

/-- C3: the `:loading` selector reports true exactly on elements whose data
slot holds an instance whose `active()` is true, and reports false on every
element with no attached instance. -/
theorem c3_selector_matches_active (w : World) (i : Nat) :
    (w.exprLoading i = true ↔ ∃ st, w.getData i = some st ∧ st.active = true) ∧
    (w.getData i = none → w.exprLoading i = false) := by
  constructor
  · constructor
    · intro h
      cases hg : w.getData i with
      | none => simp [World.exprLoading, hg] at h
      | some st => exact ⟨st, rfl, by simpa [World.exprLoading, hg] using h⟩
    · rintro ⟨st, hg, ha⟩
      simp [World.exprLoading, hg, ha]
  · intro h
    simp [World.exprLoading, h]

/-- Witness for C3 at a concrete world with an empty registry. -/
theorem c3_selector_matches_active_witness :
    (World.mk [] 0).getData 0 = none ∧ (World.mk [] 0).exprLoading 0 = false :=
  ⟨rfl, (c3_selector_matches_active (World.mk [] 0) 0).2 rfl⟩

/-- C5: with the default start and stop handlers installed, a start call
leaves `active()` true and a stop call leaves `active()` false (the 150 ms
fades are modelled by their terminal visibility); and `active()` is exactly
the current visibility of the overlay, with no separate flag. -/
theorem c5_start_stop_set_active (st : LState)
    (h1 : st.loading.settings.onStart = Callback.fadeIn 150)
    (h2 : st.loading.settings.onStop = Callback.fadeOut 150) :
    st.start.active = true ∧ st.stop.active = false ∧
      st.active = st.loading.overlay.visible := by
  refine ⟨?_, ?_, rfl⟩
  · simp [LState.start, LState.trigger, LState.active, h1, runCallback]
  · simp [LState.stop, LState.trigger, LState.active, h2, runCallback]

/-- Witness for C5 at the freshly attached demo widget, whose settings hold
the default handlers. -/
theorem c5_start_stop_set_active_witness :
    demoState.loading.settings.onStart = Callback.fadeIn 150 ∧
    demoState.start.active = true ∧ demoState.stop.active = false :=
  ⟨rfl, (c5_start_stop_set_active demoState rfl rfl).1,
    (c5_start_stop_set_active demoState rfl rfl).2.1⟩

/-- C4: attachment is idempotent.  Whatever the prior world, after one
attach call on an element, a second attach call with a config argument
constructs no second instance (the stored state is the stored state of the
first call advanced by the fall-through start request, and the second
config is ignored) and prepends no second overlay node to the page (the
overlay counter is unchanged). -/
theorem c4_attach_idempotent (w : World) (e : Elem) (o1 o2 : Opts) :
    ∃ w1 st, w.fnLoading e (LoadingArg.config o1) = (w1, none) ∧
      w1.getData e.id = some st ∧
      w1.fnLoading e (LoadingArg.config o2) =
        (World.mk (insertReg e.id st.start w1.registry) w1.overlaysCreated, none) := by
  cases hl : lookupReg e.id w.registry with
  | none =>
      refine ⟨World.mk
          (insertReg e.id (LState.start ⟨Loading.construct e o1, []⟩)
            (insertReg e.id ⟨Loading.construct e o1, []⟩ w.registry))
          (w.overlaysCreated + 1),
        LState.start ⟨Loading.construct e o1, []⟩, ?_, ?_, ?_⟩
      · simp [World.fnLoading, hl, World.fnDispatch]
      · simp [World.getData, lookupReg_insertReg]
      · simp [World.fnLoading, World.getData, lookupReg_insertReg, World.fnDispatch]
  | some st0 =>
      refine ⟨World.mk (insertReg e.id st0.start w.registry) w.overlaysCreated,
        st0.start, ?_, ?_, ?_⟩
      · simp [World.fnLoading, hl, World.fnDispatch]
      · simp [World.getData, lookupReg_insertReg]
      · simp [World.fnLoading, World.getData, lookupReg_insertReg, World.fnDispatch]

/-- C6: a click on the overlay fires exactly one `loading.click`
notification on the owning element, whatever the configuration; when the
click-to-stop handler was registered at attach time (`stoppable` held
then), the same click also fires a `loading.stop` notification and, with
the default stop handler, leaves the widget inactive.  The final conjunct
records that the registration flag equals the `stoppable` setting held at
construction. -/
theorem c6_overlay_click_fires (st : LState)
    (h : st.loading.settings.onStop = Callback.fadeOut 150) :
    countEvents EvName.click st.overlayClick = countEvents EvName.click st + 1 ∧
    (st.loading.stopOnClick = true →
       st.overlayClick.active = false ∧
       countEvents EvName.stop st.overlayClick = countEvents EvName.stop st + 1) ∧
    (∀ (e : Elem) (o : Opts),
       (Loading.construct e o).stopOnClick = (Loading.construct e o).settings.stoppable) := by
  refine ⟨?_, ?_, ?_⟩
  · by_cases hb : st.loading.stopOnClick <;>
      simp [LState.overlayClick, hb, LState.stop, countEvents_trigger]
  · intro hb
    constructor
    · simp [LState.overlayClick, hb, LState.active, LState.stop, LState.trigger,
        runCallback, h]
    · simp [LState.overlayClick, hb, LState.stop, countEvents_trigger]
  · intro e o
    simp [Loading.construct, Loading.init, Loading.attachOptions, Loading.attachExternal,
      Loading.initOverlay, Loading.resize]

/-- Witness for C6 at a concrete widget attached with `stoppable: true`. -/
theorem c6_overlay_click_fires_witness :
    demoStoppable.loading.settings.onStop = Callback.fadeOut 150 ∧
    demoStoppable.loading.stopOnClick = true ∧
    countEvents EvName.click demoStoppable.overlayClick =
      countEvents EvName.click demoStoppable + 1 ∧
    demoStoppable.overlayClick.active = false :=
  ⟨rfl, rfl, (c6_overlay_click_fires demoStoppable rfl).1,
    ((c6_overlay_click_fires demoStoppable rfl).2.1 rfl).1⟩

/-- C7 counterexample: the claim says the settings at construction are the
shallow merge of the process-wide defaults with the per-call overrides.
Passing the override `fullPage: true` while attaching to a non-body element
refutes this: the plain merge holds `fullPage = true`, but the constructor
then overwrites the key with `element.is(body) = false`, so the constructed
settings differ from the merge. -/
theorem c7_construct_not_plain_merge :
    (Loading.construct demoElem { fullPage := some true }).settings.fullPage = false ∧
    (extendDefaults Loading.defaults { fullPage := some true }).fullPage = true ∧
    (Loading.construct demoElem { fullPage := some true }).settings ≠
      extendDefaults Loading.defaults { fullPage := some true } := by
  refine ⟨rfl, rfl, fun h => ?_⟩
  have hfp := congrArg Settings.fullPage h
  exact Bool.noConfusion hfp

/-- C7 as amended: the `options(partial)` operation shallow-merges the
partial configuration into the live settings, key by key: every key
present in the partial takes its value from the partial and every absent
key is unchanged; at construction the settings are the shallow merge of
the process-wide defaults with the per-call overrides, except that the
`fullPage` key is then overwritten with whether the element is the
document body. -/
theorem c7_options_shallow_merge (s : Settings) (p : Opts) (e : Elem) (o : Opts) :
    (∀ v, p.message = some v → (s.extendWith p).message = v) ∧
    (p.message = none → (s.extendWith p).message = s.message) ∧
    (∀ v, p.theme = some v → (s.extendWith p).theme = v) ∧
    (p.theme = none → (s.extendWith p).theme = s.theme) ∧
    (∀ v, p.stoppable = some v → (s.extendWith p).stoppable = v) ∧
    (p.stoppable = none → (s.extendWith p).stoppable = s.stoppable) ∧
    (∀ v, p.onStart = some v → (s.extendWith p).onStart = v) ∧
    (p.onStart = none → (s.extendWith p).onStart = s.onStart) ∧
    (∀ v, p.onStop = some v → (s.extendWith p).onStop = v) ∧
    (p.onStop = none → (s.extendWith p).onStop = s.onStop) ∧
    (∀ v, p.onClick = some v → (s.extendWith p).onClick = v) ∧
    (p.onClick = none → (s.extendWith p).onClick = s.onClick) ∧
    (∀ v, p.fullPage = some v → (s.extendWith p).fullPage = v) ∧
    (p.fullPage = none → (s.extendWith p).fullPage = s.fullPage) ∧
    (∀ v, p.start = some v → (s.extendWith p).start = some v) ∧
    (p.start = none → (s.extendWith p).start = s.start) ∧
    (Loading.construct e o).settings =
      { extendDefaults Loading.defaults o with fullPage := e.isBody } := by
    refine ⟨?_, ?_, ?_, ?_, ?_, ?_, ?_, ?_, ?_, ?_, ?_, ?_, ?_, ?_, ?_, ?_, rfl⟩ <;>
      first
        | (intro v hv; simp [Settings.extendWith, hv])
        | (intro hv; simp [Settings.extendWith, hv])

/-- Witness for C7 at concrete settings and a concrete partial override. -/
theorem c7_options_shallow_merge_witness :
    let s := demoState.loading.settings
    let p : Opts := { theme := some "dark" }
    p.theme = some "dark" ∧ (s.extendWith p).theme = "dark" ∧
      p.message = none ∧ (s.extendWith p).message = s.message :=
  ⟨rfl,
    (c7_options_shallow_merge demoState.loading.settings { theme := some "dark" }
      demoElem {}).2.2.1 "dark" rfl,
    rfl,
    (c7_options_shallow_merge demoState.loading.settings { theme := some "dark" }
      demoElem {}).2.1 rfl⟩

/-- C8: `resize` writes the overlay top/left from the current element
offset and the width/height from the current outer dimensions, except that
both dimensions become `100%` when the instance is full page; full page is
derived at construction as whether the element is the document body;
`resize` has already been applied when construction finishes (a further
resize is a no-op on a fresh instance), and the window-resize and
document-ready handlers both apply `resize`. -/
theorem c8_resize_geometry (l : Loading) (e : Elem) (o : Opts) (st : LState) :
    (l.settings.fullPage = false →
       l.resize.overlay.top = l.element.offsetTop ∧
       l.resize.overlay.left = l.element.offsetLeft ∧
       l.resize.overlay.width = Dim.px l.element.outerWidth ∧
       l.resize.overlay.height = Dim.px l.element.outerHeight) ∧
    (l.settings.fullPage = true →
       l.resize.overlay.top = l.element.offsetTop ∧
       l.resize.overlay.left = l.element.offsetLeft ∧
       l.resize.overlay.width = Dim.pct100 ∧
       l.resize.overlay.height = Dim.pct100) ∧
    (Loading.construct e o).settings.fullPage = e.isBody ∧
    Loading.resize (Loading.construct e o) = Loading.construct e o ∧
    st.windowResize.loading = st.loading.resize ∧
    st.documentReady.loading = st.loading.resize := by
  refine ⟨?_, ?_, rfl, ?_, rfl, rfl⟩
  · intro hf
    simp [Loading.resize, hf]
  · intro hf
    simp [Loading.resize, hf]
  · rfl

/-- Witness for C8 at the demo widget, a non-full-page instance. -/
theorem c8_resize_geometry_witness :
    demoState.loading.settings.fullPage = false ∧
    demoState.loading.resize.overlay.top = 5 ∧
    demoState.loading.resize.overlay.width = Dim.px 30 :=
  ⟨rfl,
    ((c8_resize_geometry demoState.loading demoElem {} demoState).1 rfl).1,
    ((c8_resize_geometry demoState.loading demoElem {} demoState).1 rfl).2.2.1⟩

/-- C9: on an already-attached element, a string argument is dispatched
with no validation: when the string is not the name of a function-valued
property of the instance, the call raises a TypeError (carrying the state
of the world at the raise), and when it is a prototype method name the
dispatch proceeds with no error. -/
theorem c9_unknown_method_raises (w : World) (e : Elem) (st : LState)
    (nm : String) (arg : Opts)
    (hat : w.getData e.id = some st) :
    (nm ∉ Loading.methodNames →
       (w.fnLoading e (LoadingArg.method nm arg)).2 =
         some (nm ++ " is not a function")) ∧
    (nm ∈ Loading.methodNames →
       (w.fnLoading e (LoadingArg.method nm arg)).2 = none) := by
  have hl : lookupReg e.id w.registry = some st := hat
  constructor
  · intro h
    simp only [Loading.methodNames, List.mem_cons, List.not_mem_nil, or_false] at h
    push_neg at h
    obtain ⟨h1, h2, h3, h4, h5, h6, h7, h8, h9, h10⟩ := h
    simp [World.fnLoading, hl, World.fnDispatch, LState.invoke,
      h1, h2, h3, h4, h5, h6, h7, h8, h9, h10]
  · intro h
    simp only [Loading.methodNames, List.mem_cons, List.not_mem_nil, or_false] at h
    rcases h with h|h|h|h|h|h|h|h|h|h <;> subst h <;>
      simp [World.fnLoading, hl, World.fnDispatch, LState.invoke]

/-- Witness for C9: a bogus method name raises on the demo world, and a
known one does not. -/
theorem c9_unknown_method_raises_witness :
    ("blink" ∉ Loading.methodNames) ∧
    (demoWorld.fnLoading demoElem (LoadingArg.method "blink" {})).2 =
      some ("blink" ++ " is not a function") ∧
    ("toggle" ∈ Loading.methodNames) ∧
    (demoWorld.fnLoading demoElem (LoadingArg.method "toggle" {})).2 = none :=
  ⟨by decide,
    (c9_unknown_method_raises demoWorld demoElem demoState "blink" {} rfl).1 (by decide),
    by decide,
    (c9_unknown_method_raises demoWorld demoElem demoState "toggle" {} rfl).2 (by decide)⟩

/-- C10: the overlay of a freshly constructed instance is hidden, so a
widget state built by construction alone, before any `loading.start` has
been handled, reports `active()` false; and along every transition the
plugin wiring offers, a change of the overlay visibility is only possible
through the handling of a `loading.start` or `loading.stop` notification
(the count of those events strictly grows whenever visibility changes). -/
theorem c10_overlay_hidden_until_start (e : Elem) (o : Opts) (st : LState) (s : Step) :
    (Loading.construct e o).overlay.visible = false ∧
    LState.active ⟨Loading.construct e o, []⟩ = false ∧
    ((st.step s).loading.overlay.visible ≠ st.loading.overlay.visible →
       startStopCount st < startStopCount (st.step s)) := by
  refine ⟨rfl, rfl, ?_⟩
  intro hchange
  cases s with
  | startCall =>
      simp [LState.step, LState.start, startStopCount_trigger]
  | stopCall =>
      simp [LState.step, LState.stop, startStopCount_trigger]
  | toggleCall =>
      by_cases ha : st.active <;>
        simp [LState.step, LState.toggle, ha, LState.start, LState.stop,
          startStopCount_trigger]
  | clickOverlay =>
      by_cases hb : st.loading.stopOnClick
      · have hrw : st.step Step.clickOverlay =
            (st.stop).trigger EvName.click Payload.overlayNode := by
          simp [LState.step, LState.overlayClick, hb]
        rw [hrw, startStopCount_trigger,
          show st.stop = st.trigger EvName.stop (Payload.widget st.loading) from rfl,
          startStopCount_trigger]
        simp
      · simp [LState.step, LState.overlayClick, hb, LState.trigger] at hchange
  | winResize => exact absurd rfl hchange
  | docReady => exact absurd rfl hchange
  | setOptions p => exact absurd rfl hchange

/-- Witness for C10: a start call on the hidden demo widget changes the
visibility, and the start/stop event count indeed grows. -/
theorem c10_overlay_hidden_until_start_witness :
    (demoState.step Step.startCall).loading.overlay.visible ≠
      demoState.loading.overlay.visible ∧
    startStopCount demoState < startStopCount (demoState.step Step.startCall) :=
  ⟨by decide,
    (c10_overlay_hidden_until_start demoElem {} demoState Step.startCall).2.2 (by decide)⟩
